import Mathlib

/-!
Shallow embedding of the `%%dedalus` cell magic
(`magic/magic_dedalus.py`) and its helpers, together with proofs of the
behavioural properties stated in the design document.

External effects are made explicit:
* the MPI probe (`subprocess.run([... "mpiexec", "--version"])`) is an
  input `Option (Int × String)`: `none` models a raised exception
  (timeout, missing binary), `some (rc, txt)` models a completed process
  with exit code `rc` and combined `stdout + stderr` text `txt`;
* the unique temporary-file name chosen by `tempfile.NamedTemporaryFile`
  is an input `script : String`;
* the filesystem is modelled as a predicate `String → Bool` for the
  cleanup (`try/finally`) reasoning.

Python string helpers (`int`, `str.splitlines`, `textwrap.indent`,
`textwrap.dedent`) are modelled character by character; `textwrap`
functions are restricted to the line separators `"\n"`, `"\r\n"`, `"\r"`.
-/

namespace DedalusMagic

/-! ### Python string primitives -/

/-- ASCII lowercasing, modelling `str.lower()` on the probe output. -/
def strLower (s : String) : String := String.mk (s.data.map Char.toLower)

/-- ASCII uppercasing, modelling `str.upper()` in the info summary. -/
def strUpper (s : String) : String := String.mk (s.data.map Char.toUpper)

/-- Substring search, auxiliary: does `pat` occur in the list? -/
def strContainsAux (pat : List Char) : List Char → Bool
  | [] => pat.isEmpty
  | c :: rest => pat.isPrefixOf (c :: rest) || strContainsAux pat rest

/-- Substring containment, modelling Python `pat in s`. -/
def strContains (s pat : String) : Bool := strContainsAux pat.data s.data

/-- Does `s` start with `pat`? -/
def strStarts (s pat : String) : Bool := pat.data.isPrefixOf s.data

/-- Does `s` end with `pat`? -/
def strEnds (s pat : String) : Bool := pat.data.isSuffixOf s.data

/-- Number of positions at which `pat` occurs (used to count occurrences
of boilerplate fragments in the wrapped script templates). -/
def countOccs (pat : List Char) : List Char → Nat
  | [] => 0
  | c :: rest => (if pat.isPrefixOf (c :: rest) then 1 else 0) + countOccs pat rest

/-- Decimal value of an ASCII digit. -/
def digitVal (c : Char) : Nat := c.toNat - 48

/-- Digits of an integer literal after the first digit: Python `int()`
accepts single underscores, but only between two digits. -/
def pyIntDigitsRest : List Char → Nat → Option Nat
  | [], acc => some acc
  | '_' :: c :: rest, acc =>
      if c.isDigit then pyIntDigitsRest rest (acc * 10 + digitVal c) else none
  | ['_'], _ => none
  | c :: rest, acc =>
      if c.isDigit then pyIntDigitsRest rest (acc * 10 + digitVal c) else none

/-- Magnitude part of a Python integer literal: a nonempty digit string,
possibly with underscores between digits. -/
def pyIntMagnitude : List Char → Option Nat
  | [] => none
  | c :: rest => if c.isDigit then pyIntDigitsRest rest (digitVal c) else none

/-- Strip leading and trailing whitespace, as `int()` does. -/
def pyTrim (cs : List Char) : List Char :=
  ((cs.dropWhile Char.isWhitespace).reverse.dropWhile Char.isWhitespace).reverse

/-- Model of Python `int(s)` on a string argument: `none` when `int`
raises `ValueError`. -/
def pyInt (s : String) : Option Int :=
  match pyTrim s.data with
  | '+' :: rest => (pyIntMagnitude rest).map Int.ofNat
  | '-' :: rest => (pyIntMagnitude rest).map (fun n => -(n : Int))
  | cs => (pyIntMagnitude cs).map Int.ofNat

/-- Is the character one of the modelled line separators? -/
def lineBreak (c : Char) : Bool := c == '\n' || c == '\r'

/-- Remove one line separator (`"\r\n"` counts as one) from the front. -/
def dropBreak : List Char → List Char
  | [] => []
  | c :: rest =>
    if c = '\r' then
      match rest with
      | '\n' :: rest2 => rest2
      | _ => rest
    else rest

/-- The line separator at the front (`"\r\n"` counts as one). -/
def takeBreak : List Char → List Char
  | [] => []
  | c :: rest =>
    if c = '\r' then
      match rest with
      | '\n' :: _ => ['\r', '\n']
      | _ => ['\r']
    else [c]

theorem dropBreak_length_le (c : Char) (rest : List Char) :
    (dropBreak (c :: rest)).length ≤ rest.length := by
  simp only [dropBreak]
  split
  · split
    · simp
    · exact Nat.le_refl _
  · exact Nat.le_refl _

/-- Model of `str.splitlines()` (without `keepends`) on the line
separators `"\n"`, `"\r\n"`, `"\r"`. -/
def pySplitlinesL (cs : List Char) : List (List Char) :=
  if cs.isEmpty then []
  else
    match hrest : cs.dropWhile (fun c => !lineBreak c) with
    | [] => [cs.takeWhile (fun c => !lineBreak c)]
    | r :: rs =>
      cs.takeWhile (fun c => !lineBreak c) :: pySplitlinesL (dropBreak (r :: rs))
termination_by cs.length
decreasing_by
  have h1 := dropBreak_length_le r rs
  have h2 : (cs.dropWhile (fun c => !lineBreak c)).length ≤ cs.length :=
    (List.dropWhile_sublist _).length_le
  rw [hrest] at h2
  simp only [List.length_cons] at h2
  omega

/-- `str.splitlines()` on strings. -/
def pySplitlines (s : String) : List String :=
  (pySplitlinesL s.data).map String.mk

/-- The first line of a string: everything before the first line break. -/
def firstLineOf (s : String) : String :=
  String.mk (s.data.takeWhile fun c => !lineBreak c)

/-- Model of `str.splitlines(keepends=True)` on the same separators. -/
def splitKeepEndsL (cs : List Char) : List (List Char) :=
  if cs.isEmpty then []
  else
    match hrest : cs.dropWhile (fun c => !lineBreak c) with
    | [] => [cs.takeWhile (fun c => !lineBreak c)]
    | r :: rs =>
      (cs.takeWhile (fun c => !lineBreak c) ++ takeBreak (r :: rs)) ::
        splitKeepEndsL (dropBreak (r :: rs))
termination_by cs.length
decreasing_by
  have h1 := dropBreak_length_le r rs
  have h2 : (cs.dropWhile (fun c => !lineBreak c)).length ≤ cs.length :=
    (List.dropWhile_sublist _).length_le
  rw [hrest] at h2
  simp only [List.length_cons] at h2
  omega

/-- Model of `textwrap.indent(text, pre)`: each line that contains a
non-whitespace character receives the prefix `pre` (the default
predicate of `textwrap.indent` is `line.strip()`). -/
def pyIndent (pre : String) (text : String) : String :=
  String.join ((splitKeepEndsL text.data).map fun l =>
    if l.any (fun c => !c.isWhitespace) then pre ++ String.mk l else String.mk l)

/-- Longest common starting run of two character lists (margin
computation of `textwrap.dedent`). -/
def sharedStart : List Char → List Char → List Char
  | [], _ => []
  | _, [] => []
  | a :: as, b :: bs => if a = b then a :: sharedStart as bs else []

/-- Is the character a space or a tab? -/
def isSpaceTab (c : Char) : Bool := c == ' ' || c == '\t'

/-- Model of `textwrap.dedent(text)`: lines consisting solely of spaces
and tabs are emptied, the longest common leading space/tab margin of the
remaining lines is computed, and that margin is removed from the start
of every line that carries it. -/
def pyDedent (text : String) : String :=
  let lines := text.splitOn "\n"
  let norm := lines.map fun l =>
    if (!l.data.isEmpty) && l.data.all isSpaceTab then "" else l
  let indents := (norm.filter fun l => l.data.any fun c => !isSpaceTab c).map
    fun l => l.data.takeWhile isSpaceTab
  let margin := match indents with
    | [] => ([] : List Char)
    | i :: is => is.foldl sharedStart i
  String.intercalate "\n" (norm.map fun l =>
    if margin.isPrefixOf l.data then String.mk (l.data.drop margin.length) else l)

/-! ### Constants of `magic_dedalus.py` -/

/-- Hard-coded micromamba path. -/
def MICROMAMBA : String := "/content/micromamba/bin/micromamba"

/-- Name of the micromamba environment. -/
def ENV_NAME : String := "dedalus"

/-- The two MPI implementation variants distinguished by `detect_mpi`. -/
inductive MpiImpl where
  | openmpi
  | mpich
deriving DecidableEq

/-- The string value `detect_mpi` returns for each variant. -/
def mpiImplName : MpiImpl → String
  | .openmpi => "openmpi"
  | .mpich => "mpich"

/-! ### MPI detection helpers -/

/-- `detect_mpi(env)`: lowercase the combined `stdout + stderr` text of
the version query and classify; every raised exception (modelled by
`none`) falls through to `"mpich"`.  The exit code of the completed
probe process is never consulted. -/
def detect_mpi (probe : Option (Int × String)) : MpiImpl :=
  match probe with
  | none => .mpich
  | some (_, txtRaw) =>
    let txt := strLower txtRaw
    if strContains txt "open mpi" || strContains txt "open-mpi" then .openmpi
    else .mpich

/-- `mpi_version(env)`: the first element of `splitlines()` of the
combined output; any raised exception (including the `IndexError` on
empty output) yields `"unknown"`. -/
def mpi_version (probe : Option (Int × String)) : String :=
  match probe with
  | none => "unknown"
  | some (_, txtRaw) =>
    match pySplitlines txtRaw with
    | [] => "unknown"
    | l :: _ => l

/-! ### Command builder -/

/-- `build_cmd(script)`: launcher is `mpirun` for Open MPI, `mpiexec`
for MPICH; the rank count is rendered with `str(np)`. -/
def build_cmd (np : Int) (mpi_impl : MpiImpl) (script : String) : List String :=
  let launcher := match mpi_impl with
    | .openmpi => "mpirun"
    | .mpich => "mpiexec"
  [MICROMAMBA, "run", "-n", ENV_NAME, launcher, "-n", toString np, "python", script]

/-- The launcher binary `build_cmd` selects for each variant. -/
def launcherFor : MpiImpl → String
  | .openmpi => "mpirun"
  | .mpich => "mpiexec"

/-! ### Script materializer -/

/-- Text of the timing template before the interpolated user code. -/
def timePre : String :=
"\nfrom mpi4py import MPI\nimport time\n\n_comm = MPI.COMM_WORLD\n_rank = _comm.rank\n_size = _comm.size\n\n# -----------------\n# synchronize before timing\n# -----------------\n_comm.Barrier()\n_t0 = time.perf_counter()\n\n# -----------------\n# User code\n# -----------------\ntry:\n"

/-- Text of the timing template after the interpolated user code. -/
def timeSuf : String :=
"\nexcept Exception as e:\n    import traceback\n    traceback.print_exc()\n    _comm.Abort(1)\n\n# -----------------\n# synchronize after user code\n# -----------------\n_comm.Barrier()\n_t1 = time.perf_counter()\n\n# -----------------\n# elapsed time only on rank 0\n# -----------------\nif _rank == 0:\n    print(f\"⏱ Elapsed time: \x7b_t1 - _t0:.6f\x7d s\")\n"

/-- The `--time` wrapper: f-string with `textwrap.indent(user_code, four
spaces)` interpolated between the two template halves. -/
def timeWrapped (user_code : String) : String :=
  timePre ++ pyIndent "    " user_code ++ timeSuf

/-- Text of the plain template before the interpolated user code. -/
def plainPre : String := "\ntry:\n"

/-- Text of the plain template after the interpolated user code. -/
def plainSuf : String :=
"\nexcept Exception as e:\n    import traceback\n    from mpi4py import MPI\n    traceback.print_exc()\n    MPI.COMM_WORLD.Abort(1)\n"

/-- The plain (non-timing) wrapper. -/
def plainWrapped (user_code : String) : String :=
  plainPre ++ pyIndent "    " user_code ++ plainSuf

/-- Lines 143-192 of the magic: dedent the cell, then wrap it with the
timing template when `--time` was given, with the plain template
otherwise.  This is the text written to the temporary file. -/
def materializeScript (cell : String) (time_mode : Bool) : String :=
  let user_code := pyDedent cell
  if time_mode then timeWrapped user_code else plainWrapped user_code

/-! ### Info mode -/

/-- The fixed built-in diagnostic script run by `--info` mode. -/
def infoCode : String :=
"\nimport dedalus.public as d3\nfrom mpi4py import MPI\nimport sys, platform, os\n\ncomm = MPI.COMM_WORLD\nif comm.rank == 0:\n    print()\n    print(\"🐍 Python          :\", sys.version.split()[0])\n    print(\"🌊 Dedalus         :\", d3.__version__)\n    print(\"💻 Platform        :\", platform.platform())\n    print(\"🧵 Running as root :\", os.geteuid() == 0)\n    print(\"⚡ MPI Size        :\", comm.Get_size())\n"

/-- The runtime-summary lines printed at the end of `--info` mode. -/
def infoSummary (impl : MpiImpl) (ver : String) (np : Int) : List String :=
  ["\n🔎 Dedalus runtime info",
   "-----------------------",
   "Environment        : " ++ ENV_NAME,
   "micromamba         : " ++ MICROMAMBA,
   "MPI implementation : " ++ strUpper (mpiImplName impl),
   "MPI version        : " ++ ver,
   "MPI ranks (-np)    : " ++ toString np]

/-! ### Argument handling and the magic itself -/

/-- The error message printed when parsing the `-np` argument fails. -/
def npErrMsg : String := "❌ Error: -np option requires an integer argument"

/-- The token following the first occurrence of `-np`
(`args[args.index("-np") + 1]`); `none` models the `IndexError`. -/
def npTokenAfter (args : List String) : Option String :=
  (args.drop (args.indexOf "-np" + 1)).head?

/-- The rank count after option parsing: `1` when `-np` is absent,
otherwise `int()` of the following token; `none` models the caught
`ValueError` / `IndexError` path. -/
def npResult (args : List String) : Option Int :=
  if "-np" ∈ args then
    match npTokenAfter args with
    | none => none
    | some tok => pyInt tok
  else
    some 1

/-- Observable outcome of one invocation of the `%%dedalus` magic:
either the `-np` parse error (message printed, early return, no
subprocess), or a subprocess launch with its command vector, the text
of the materialized script, and — in info mode — the summary lines
printed afterwards. -/
inductive DedalusResult where
  | npError (msg : String)
  | run (cmd : List String) (scriptText : String) (summary : Option (List String))
deriving DecidableEq

/-- The `dedalus(line, cell)` magic body: option parsing (with early
return on a bad `-np` argument), MPI detection, then either the info
path (fixed diagnostic script plus summary) or the normal path
(dedent + wrap the cell and launch it). -/
def dedalus (args : List String) (cell : String) (probe : Option (Int × String))
    (script : String) : DedalusResult :=
  match npResult args with
  | none => .npError npErrMsg
  | some np =>
    let mpi_impl := detect_mpi probe
    let mpi_ver := mpi_version probe
    if "--info" ∈ args then
      .run (build_cmd np mpi_impl script) infoCode
        (some (infoSummary mpi_impl mpi_ver np))
    else
      .run (build_cmd np mpi_impl script)
        (materializeScript cell (args.contains "--time")) none

/-! ### Filesystem model for the cleanup discipline -/

/-- A filesystem, as the set of existing paths. -/
def FS : Type := String → Bool

/-- `tempfile.NamedTemporaryFile(delete=False)` + write: the path exists
afterwards. -/
def fsCreate (fs : FS) (p : String) : FS :=
  fun q => if q = p then true else fs q

/-- `os.remove(p)`: the path no longer exists. -/
def fsRemove (fs : FS) (p : String) : FS :=
  fun q => if q = p then false else fs q

/-- The `try` body of the normal path (Popen, streaming loop, wait):
it touches no files; `raises` tells whether it raised. -/
def streamBody (raises : Bool) : Except String Unit :=
  if raises then Except.error "exception while streaming output" else Except.ok ()

/-- Normal path, lines 194-223: materialize the script, run the guarded
body, then the `finally` clause (`if os.path.exists(script):
os.remove(script)`), which executes whether or not the body raised. -/
def normalInvocationFiles (fs : FS) (script : String) (raises : Bool) :
    FS × Except String Unit :=
  let fs1 := fsCreate fs script
  let outcome := streamBody raises
  let fs2 := if fs1 script then fsRemove fs1 script else fs1
  (fs2, outcome)

/-- Info path, lines 117-129: materialize the diagnostic script, run the
guarded body, then the `finally` clause (`os.remove(script)`). -/
def infoInvocationFiles (fs : FS) (script : String) (raises : Bool) :
    FS × Except String Unit :=
  let fs1 := fsCreate fs script
  let outcome := streamBody raises
  (fsRemove fs1 script, outcome)

/-! ### Supporting lemmas -/

theorem pySplitlinesL_head (cs : List Char) (h : ¬ cs.isEmpty) :
    (pySplitlinesL cs).head? = some (cs.takeWhile fun c => !lineBreak c) := by
  rw [pySplitlinesL, if_neg h]
  split <;> simp

theorem pySplitlinesL_nil : pySplitlinesL [] = [] := by
  rw [pySplitlinesL]
  rfl

/-! ### Claim C1 -/

/-- C1, counterexample: on the canned probe output `"Open-MPI 4.1.2"`, which
does not contain the substring `"open mpi"`, `detect_mpi` nevertheless
returns the first variant (`openmpi`), because the source also matches the
alternative spelling `"open-mpi"` against the lowercased text.  This refutes
the claim that `openmpi` is returned exactly when the combined output
contains `"open mpi"`. -/
theorem detect_mpi_open_hyphen_cex :
    detect_mpi (some (0, "Open-MPI 4.1.2")) = MpiImpl.openmpi ∧
    strContains "Open-MPI 4.1.2" "open mpi" = false := by
  constructor
  · decide
  · decide

/-- C1 (amended): `detect_mpi` returns the first variant (`openmpi`) exactly
when the probe completed (no exception) and the lowercased combined
stdout+stderr text contains `"open mpi"` or `"open-mpi"`; in every other
case — any other output, or any raised failure such as a timeout or a
missing binary — it returns the second variant (`mpich`) without raising.
The exit code of a completed probe is never consulted. -/
theorem detect_mpi_classification (probe : Option (Int × String)) :
    detect_mpi probe = MpiImpl.openmpi ↔
      ∃ rc out, probe = some (rc, out) ∧
        (strContains (strLower out) "open mpi" ||
          strContains (strLower out) "open-mpi") = true := by
  cases probe with
  | none => simp [detect_mpi]
  | some p =>
    obtain ⟨rc, out⟩ := p
    constructor
    · intro hd
      refine ⟨rc, out, rfl, ?_⟩
      cases hb : (strContains (strLower out) "open mpi" ||
          strContains (strLower out) "open-mpi") with
      | true => rfl
      | false =>
        simp only [detect_mpi, hb, Bool.false_eq_true, if_false] at hd
        cases hd
    · rintro ⟨rc2, out2, heq, hb⟩
      obtain ⟨rfl, rfl⟩ : rc2 = rc ∧ out2 = out := by
        injection heq with h2
        injection h2 with ha hb2
        exact ⟨ha.symm, hb2.symm⟩
      simp [detect_mpi, hb]

/-! ### Claim C2 -/

/-- C2, counterexample: the argument line `-np 0` parses successfully
(Python `int("0")` succeeds), so the invocation is not rejected, reaches
the Command Builder with a rank count of `0`, and `0 ≥ 1` is false.  This
refutes the invariant that every configuration reaching the builder has a
rank count of at least `1`. -/
theorem dedalus_nonpositive_rank_cex :
    dedalus ["-np", "0"] "x = 1" none "/tmp/s.py" =
      DedalusResult.run (build_cmd 0 MpiImpl.mpich "/tmp/s.py")
        (materializeScript "x = 1" false) none ∧
    ¬ ((1 : Int) ≤ 0) := by
  exact ⟨rfl, by decide⟩

/-- C2 (amended): the rank count that reaches the Command Builder is
exactly the integer produced by parsing (default `1` when `-np` is
absent), and it may be zero or negative, since `int()` accepts any
integer; if parsing of the rank-count argument fails, the configuration
is rejected — the magic returns the `-np` error before any subprocess is
spawned. -/
theorem dedalus_rank_parse (args : List String) (cell : String)
    (probe : Option (Int × String)) (script : String) :
    (npResult args = none →
      dedalus args cell probe script = DedalusResult.npError npErrMsg) ∧
    (∀ n, npResult args = some n →
      ∃ txt s, dedalus args cell probe script =
        DedalusResult.run (build_cmd n (detect_mpi probe) script) txt s) := by
  constructor
  · intro h
    simp [dedalus, h]
  · intro n h
    by_cases hinfo : "--info" ∈ args
    · exact ⟨infoCode, some (infoSummary (detect_mpi probe) (mpi_version probe) n),
        by simp [dedalus, h, hinfo]⟩
    · exact ⟨materializeScript cell (args.contains "--time"), none,
        by simp [dedalus, h, hinfo]⟩

/-- C2, witness: at the concrete argument line `-np 2` the parse succeeds
with rank count `2` and the builder is invoked with it, and at `-np x`
the parse fails and the invocation is rejected. -/
theorem dedalus_rank_parse_witness :
    (npResult ["-np", "x"] = none →
      dedalus ["-np", "x"] "pass" none "/tmp/a.py" =
        DedalusResult.npError npErrMsg) ∧
    (∀ n, npResult ["-np", "x"] = some n →
      ∃ txt s, dedalus ["-np", "x"] "pass" none "/tmp/a.py" =
        DedalusResult.run (build_cmd n (detect_mpi none) "/tmp/a.py") txt s) :=
  dedalus_rank_parse ["-np", "x"] "pass" none "/tmp/a.py"

/-! ### Claim C3 -/

/-- C3: for both the normal path and the info path, whether the spawned
subprocess and the streaming loop complete normally or raise, the
`finally` clause removes the materialized temporary script, so the file
no longer exists when the invocation ends. -/
theorem temp_script_always_removed (fs : FS) (script : String) (raises : Bool) :
    (normalInvocationFiles fs script raises).1 script = false ∧
    (infoInvocationFiles fs script raises).1 script = false := by
  constructor
  · simp [normalInvocationFiles, fsCreate, fsRemove]
  · simp [infoInvocationFiles, fsCreate, fsRemove]

/-! ### Claim C4 -/

/-- C4: whenever `-np` occurs in the argument line but is followed by no
token at all (`IndexError`) or by a token that `int()` rejects
(`ValueError`), the magic prints the error message and returns: the
result is the rejection outcome, so neither the Command Builder nor any
subprocess is reached. -/
theorem dedalus_bad_np_aborts (args : List String) (cell : String)
    (probe : Option (Int × String)) (script : String)
    (hmem : "-np" ∈ args)
    (hbad : npTokenAfter args = none ∨
      ∃ tok, npTokenAfter args = some tok ∧ pyInt tok = none) :
    dedalus args cell probe script = DedalusResult.npError npErrMsg := by
  have h0 : npResult args = none := by
    rcases hbad with h | ⟨tok, ht, hv⟩
    · simp [npResult, hmem, h]
    · simp [npResult, hmem, ht, hv]
  simp [dedalus, h0]

/-- C4, witness: the concrete argument lines `-np four` (non-integer
token) and `-np` (missing token) are both rejected. -/
theorem dedalus_bad_np_aborts_witness :
    dedalus ["-np", "four"] "x = 1" none "/tmp/a.py" =
      DedalusResult.npError npErrMsg ∧
    dedalus ["--time", "-np"] "x = 1" none "/tmp/a.py" =
      DedalusResult.npError npErrMsg := by
  constructor
  · exact dedalus_bad_np_aborts ["-np", "four"] "x = 1" none "/tmp/a.py"
      (by decide) (Or.inr ⟨"four", by decide, by decide⟩)
  · exact dedalus_bad_np_aborts ["--time", "-np"] "x = 1" none "/tmp/a.py"
      (by decide) (Or.inl (by decide))

/-! ### Claim C5 -/

/-- C5: `build_cmd` is a pure function producing, for every rank count,
variant and script path, exactly the ordered vector
environment-manager invocation ++ launcher selected by the variant ++
rank-count flag with the decimal rendering of the configured count ++
interpreter and target script path; element 6 is precisely `str(np)`. -/
theorem build_cmd_spec (np : Int) (impl : MpiImpl) (script : String) :
    build_cmd np impl script =
      [MICROMAMBA, "run", "-n", ENV_NAME] ++
        [launcherFor impl, "-n", toString np, "python", script] ∧
    (build_cmd np impl script)[6]? = some (toString np) := by
  cases impl <;> exact ⟨rfl, rfl⟩

/-! ### Claim C6 -/

set_option maxRecDepth 100000 in
/-- C6: for every user code text, the timing wrapper is the fixed
template text around the indented user code; the template part before
the user code block contains exactly one collective synchronization
barrier (`_comm.Barrier()`), the part after it contains exactly one, and
the elapsed-time print statement occurs exactly once — in the trailing
template, immediately under the `if _rank == 0:` guard, which holds only
on the coordinating participant. -/
theorem time_wrapped_barriers (u : String) :
    timeWrapped u = timePre ++ pyIndent "    " u ++ timeSuf ∧
    countOccs "_comm.Barrier()".data timePre.data = 1 ∧
    countOccs "_comm.Barrier()".data timeSuf.data = 1 ∧
    countOccs "print(f\"⏱ Elapsed time: \x7b_t1 - _t0:.6f\x7d s\")".data
      timePre.data = 0 ∧
    countOccs "print(f\"⏱ Elapsed time: \x7b_t1 - _t0:.6f\x7d s\")".data
      timeSuf.data = 1 ∧
    strContains timeSuf
      "if _rank == 0:\n    print(f\"⏱ Elapsed time: \x7b_t1 - _t0:.6f\x7d s\")" =
      true := by
  exact ⟨rfl, by decide, by decide, by decide, by decide, by decide⟩

/-! ### Claim C7 -/

set_option maxRecDepth 100000 in
/-- C7: in both modes the materialized script places the indented user
code between a template part ending in `try:` and a template part
beginning with the `except Exception` handler, and that handler prints
the full diagnostic traceback and then immediately triggers the
collective abort (`Abort(1)` on the world communicator). -/
theorem wrapped_guard_abort (u : String) :
    timeWrapped u = timePre ++ pyIndent "    " u ++ timeSuf ∧
    plainWrapped u = plainPre ++ pyIndent "    " u ++ plainSuf ∧
    strEnds timePre "try:\n" = true ∧
    strEnds plainPre "try:\n" = true ∧
    strStarts timeSuf "\nexcept Exception as e:" = true ∧
    strStarts plainSuf "\nexcept Exception as e:" = true ∧
    strContains timeSuf "    traceback.print_exc()\n    _comm.Abort(1)" = true ∧
    strContains plainSuf
      "    traceback.print_exc()\n    MPI.COMM_WORLD.Abort(1)" = true := by
  exact ⟨rfl, rfl, by decide, by decide, by decide, by decide, by decide,
    by decide⟩

/-! ### Claim C8 -/

/-- C8: the diagnostic version string is the first line of the combined
stdout+stderr output of the version-query subprocess whenever the probe
completed with nonempty output, and is the sentinel `"unknown"` when the
probe raised (timeout, missing binary) — and also on empty output, where
the internal `splitlines()[0]` raises an `IndexError` that is likewise
caught; in no case does `mpi_version` raise to the caller. -/
theorem mpi_version_spec (probe : Option (Int × String)) :
    (probe = none → mpi_version probe = "unknown") ∧
    (∀ rc out, probe = some (rc, out) → out ≠ "" →
      mpi_version probe = firstLineOf out) ∧
    (∀ rc, probe = some (rc, "") → mpi_version probe = "unknown") := by
  refine ⟨fun h => by rw [h]; rfl, fun rc out hp h0 => ?_, fun rc hp => by
    have hdat : ("" : String).data = [] := rfl
    rw [hp]
    simp [mpi_version, pySplitlines, hdat, pySplitlinesL_nil]⟩
  subst hp
  have hne : ¬ out.data.isEmpty := by
    cases out with
    | mk l =>
      cases l with
      | nil => exact absurd rfl h0
      | cons c cs => simp
  have hd := pySplitlinesL_head out.data hne
  cases hsp : pySplitlinesL out.data with
  | nil => rw [hsp] at hd; cases hd
  | cons l ls =>
    rw [hsp] at hd
    simp only [List.head?_cons, Option.some.injEq] at hd
    simp only [mpi_version, pySplitlines, hsp, List.map_cons]
    rw [hd]
    rfl

/-- C8, witness: a completed probe with a two-line output yields its
first line, and a raised probe yields `"unknown"`. -/
theorem mpi_version_spec_witness :
    mpi_version (some (0, "mpiexec (OpenRTE) 4.1.2\nReport bugs")) =
      firstLineOf "mpiexec (OpenRTE) 4.1.2\nReport bugs" ∧
    mpi_version none = "unknown" := by
  constructor
  · exact (mpi_version_spec (some (0, "mpiexec (OpenRTE) 4.1.2\nReport bugs")))
      |>.2.1 0 "mpiexec (OpenRTE) 4.1.2\nReport bugs" rfl (by decide)
  · exact (mpi_version_spec none).1 rfl

/-! ### Claim C9 -/

/-- C9: the Script Materializer is deterministic in its produced text:
two calls with equal user code and equal timing-mode flags produce
textually identical wrapped script contents (only the temporary file
name, which is outside the produced text, differs between calls). -/
theorem materialize_deterministic (c1 c2 : String) (t1 t2 : Bool)
    (hc : c1 = c2) (ht : t1 = t2) :
    materializeScript c1 t1 = materializeScript c2 t2 := by
  rw [hc, ht]

/-- C9, witness: two calls on the same concrete cell and flag agree. -/
theorem materialize_deterministic_witness :
    materializeScript "print(1)" true = materializeScript "print(1)" true :=
  materialize_deterministic "print(1)" "print(1)" true true rfl rfl

/-! ### Claim C10 -/

/-- C10: when `--info` is present (and the rank-count argument parses),
the invocation runs the fixed built-in diagnostic script and prints the
runtime summary, returning before the normal execution path: the result
is completely independent of the cell body and of everything in the
argument line beyond the parsed rank count — in particular the `--time`
flag and the cell contents have no effect in info mode, and the cell is
never wrapped or materialized. -/
theorem dedalus_info_mode (args args2 : List String) (cell cell2 : String)
    (probe : Option (Int × String)) (script : String)
    (h1 : "--info" ∈ args) (h2 : "--info" ∈ args2)
    (hnp : npResult args = npResult args2) :
    dedalus args cell probe script = dedalus args2 cell2 probe script ∧
    (∀ n, npResult args = some n →
      dedalus args cell probe script =
        DedalusResult.run (build_cmd n (detect_mpi probe) script) infoCode
          (some (infoSummary (detect_mpi probe) (mpi_version probe) n))) := by
  constructor
  · cases h : npResult args2 with
    | none => simp [dedalus, hnp, h]
    | some n => simp [dedalus, hnp, h, h1, h2]
  · intro n h
    simp [dedalus, h, h1]

/-- C10, witness: with `--info --time` and cell `x = 1` versus plain
`--info` and cell `y = 2`, the results coincide and equal the info run
of the fixed diagnostic script with the default rank count `1`. -/
theorem dedalus_info_mode_witness :
    dedalus ["--info", "--time"] "x = 1" none "/tmp/s.py" =
      dedalus ["--info"] "y = 2" none "/tmp/s.py" ∧
    dedalus ["--info", "--time"] "x = 1" none "/tmp/s.py" =
      DedalusResult.run (build_cmd 1 (detect_mpi none) "/tmp/s.py") infoCode
        (some (infoSummary (detect_mpi none) (mpi_version none) 1)) := by
  have h := dedalus_info_mode ["--info", "--time"] ["--info"] "x = 1" "y = 2"
    none "/tmp/s.py" (by decide) (by decide) (by decide)
  exact ⟨h.1, h.2 1 (by decide)⟩

end DedalusMagic
